import Mathlib

/-!
Verification of the UMS chatbot backend: a Retrieval Service (Express +
FAISS vector store) and a Proxy Gateway that forwards questions to it.
The definitions below are a shallow embedding of the JavaScript request
handlers; external effects (the similarity search, the outbound HTTP
forward) are passed in as explicit values so the handlers' branching can
be proved about.
-/

/-- A langchain `Document`: carries its source text in `pageContent`. -/
structure Doc where
  pageContent : String
deriving Repr, DecidableEq

/-- The vector store, seen through the only operation the service uses:
`similaritySearchWithScore(question, k)` returning scored documents,
closest first. The search itself is an external library; it is kept
abstract as a function. -/
def VectorStore : Type := String → Nat → List (Doc × Int)

/-- Response produced by the Retrieval Service's `/api/query` handler.
`searched` records the arguments of the `similaritySearchWithScore`
call when one was made (`none` when the handler returned early without
searching). -/
structure RagResult where
  status : Nat
  answer : String
  searched : Option (String × Nat)

/-- The Retrieval Service `/api/query` handler (rag server, lines 71-98):
destructure `question` from the body; if falsy reply 200 with a
"no question" answer; if the vector store is null reply 503; otherwise
run `similaritySearchWithScore(question, 3)` and answer with the top
hit's `pageContent`, or a fixed fallback when there are no hits. -/
def ragApiQuery (vectorstore : Option VectorStore) (question : Option String) :
    RagResult :=
  match question with
  | none => ⟨200, "❌ No question provided.", none⟩
  | some q =>
    if q = "" then ⟨200, "❌ No question provided.", none⟩
    else
      match vectorstore with
      | none => ⟨503, "❌ Vector store not ready.", none⟩
      | some vs =>
        let similarDocs := vs q 3
        let answer :=
          match similarDocs with
          | [] => "Sorry, no relevant answer found."
          | (d, _) :: _ => d.pageContent
        ⟨200, answer, some (q, 3)⟩

/-- Body of the Retrieval Service's `/health` response. -/
structure RagHealthBody where
  statusMsg : String
  vectorstoreReady : Bool
  totalDocumentsField : Nat

/-- State of the Retrieval Service process: the module-level `vectorstore`
and `totalDocuments` variables. -/
structure RagServerState where
  vectorstore : Option VectorStore
  totalDocuments : Nat

/-- The Retrieval Service `/health` handler (lines 63-69): reports
readiness as `vectorstore !== null` and the document count. -/
def ragHealth (s : RagServerState) : RagHealthBody :=
  ⟨"RAG server is running", s.vectorstore.isSome, s.totalDocuments⟩

/-- Flattening of the categorized knowledge base (lines 32-35): every
category's path list is appended, in order, into one document list. -/
def flattenKB (kb : List (String × List String)) : List String :=
  (kb.map (·.2)).flatten

/-- Modelled from the spec: the chunking step is performed by the external
`RecursiveCharacterTextSplitter` library (not part of this repository);
the spec describes it as fixed-size windowing with a window of 200
characters and an overlap of 20 (hence a stride of 180), where an entry
no longer than the window yields itself as the single chunk. -/
def windowChunks (s : List Char) : List (List Char) :=
  if _h : s.length ≤ 200 then [s]
  else s.take 200 :: windowChunks (s.drop 180)
termination_by s.length
decreasing_by
  simp only [List.length_drop]
  omega

/-- Split one knowledge entry into chunk strings (window 200, overlap 20). -/
def splitEntry (text : String) : List String :=
  (windowChunks text.toList).map (fun cs => String.mk cs)

/-- All chunks produced from a knowledge base: flatten, then split each
entry (rag server lines 40-48). -/
def allChunks (kb : List (String × List String)) : List String :=
  ((flattenKB kb).map splitEntry).flatten

theorem windowChunks_ne_nil (s : List Char) : windowChunks s ≠ [] := by
  unfold windowChunks
  split <;> simp

theorem splitEntry_length_pos (t : String) : 1 ≤ (splitEntry t).length := by
  have h := windowChunks_ne_nil t.toList
  unfold splitEntry
  cases hw : windowChunks t.toList with
  | nil => exact absurd hw h
  | cons a l => simp

/-- Shared helper: with a non-empty question and a null vector store, the
query handler returns the 503 not-ready response. -/
theorem ragApiQuery_not_ready (q : String) (hq : q ≠ "") :
    ragApiQuery none (some q) = ⟨503, "❌ Vector store not ready.", none⟩ := by
  simp only [ragApiQuery]
  rw [if_neg hq]

/-- The observable states of the Retrieval Service process during
`initializeRAG` (lines 25-61), at each point where a concurrently served
request could read the module variables: the initial state (file read,
split and embedding still in progress), the state after `totalDocuments`
is assigned (line 37), and the final state after `vectorstore` is
assigned in one step from the fully built index (line 54). `buildIndex`
stands for the external `FaissStore.fromDocuments`. -/
def initTrace (kb : List (String × List String))
    (buildIndex : List String → VectorStore) : List RagServerState :=
  [ ⟨none, 0⟩,
    ⟨none, (flattenKB kb).length⟩,
    ⟨some (buildIndex (allChunks kb)), (flattenKB kb).length⟩ ]

/-- C1 -- When the Retrieval Service is ready and the question is
non-empty, `/api/query` replies 200 with the `pageContent` of the first
result of the k=3 similarity search, and with the fixed fallback string
(still a 200) when the search returns no candidates. -/
theorem rag_query_top1_or_fallback (vs : VectorStore) (q : String) (hq : q ≠ "") :
    (ragApiQuery (some vs) (some q)).status = 200 ∧
    (ragApiQuery (some vs) (some q)).answer =
      (match vs q 3 with
       | [] => "Sorry, no relevant answer found."
       | (d, _) :: _ => d.pageContent) ∧
    (ragApiQuery (some vs) (some q)).searched = some (q, 3) := by
  simp only [ragApiQuery]
  rw [if_neg hq]
  cases h : vs q 3 with
  | nil => simp [h]
  | cons p l =>
    obtain ⟨d, sc⟩ := p
    simp [h]

theorem rag_query_top1_or_fallback_witness :
    (ragApiQuery (some (fun _ _ => [(⟨"Login -> UmsHome"⟩, 0)])) (some "How to change password?")).status = 200 ∧
    (ragApiQuery (some (fun _ _ => [(⟨"Login -> UmsHome"⟩, 0)])) (some "How to change password?")).answer =
      (match (fun (_ : String) (_ : Nat) => [((⟨"Login -> UmsHome"⟩ : Doc), (0 : Int))]) "How to change password?" 3 with
       | [] => "Sorry, no relevant answer found."
       | (d, _) :: _ => d.pageContent) ∧
    (ragApiQuery (some (fun _ _ => [(⟨"Login -> UmsHome"⟩, 0)])) (some "How to change password?")).searched =
      some ("How to change password?", 3) :=
  rag_query_top1_or_fallback (fun _ _ => [(⟨"Login -> UmsHome"⟩, 0)]) "How to change password?" (by decide)

/-- C2 counterexample -- a query whose body carries no question, issued
while the vector store is not yet built, is answered 200 (with the
"no question provided" text), not 503: the question-presence check runs
before the readiness check. -/
theorem rag_query_not_ready_missing_question_200 :
    (ragApiQuery none none).status = 200 ∧ (ragApiQuery none none).status ≠ 503 :=
  ⟨rfl, by decide⟩

/-- C2 (amended) -- for every query whose question is present and
non-empty, issued before the vector index is built, the Retrieval
Service replies 503 with the not-ready answer and performs no
similarity search (no false-positive answer, no crash). -/
theorem rag_query_not_ready_503 (q : String) (hq : q ≠ "") :
    (ragApiQuery none (some q)).status = 503 ∧
    (ragApiQuery none (some q)).answer = "❌ Vector store not ready." ∧
    (ragApiQuery none (some q)).searched = none := by
  rw [ragApiQuery_not_ready q hq]
  exact ⟨rfl, rfl, rfl⟩

theorem rag_query_not_ready_503_witness :
    (ragApiQuery none (some "How to change password?")).status = 503 ∧
    (ragApiQuery none (some "How to change password?")).answer = "❌ Vector store not ready." ∧
    (ragApiQuery none (some "How to change password?")).searched = none :=
  rag_query_not_ready_503 "How to change password?" (by decide)

/-- C5 -- along the initialization trace, the vector store is non-null
(readiness) exactly at the final state, after the index build has
completed: readiness is write-once (false, false, then true), the
`/health` handler reports ready only at the final state, and any
non-empty-question query served from a non-final state gets the 503
not-ready response. -/
theorem readiness_only_after_build (kb : List (String × List String))
    (buildIndex : List String → VectorStore) (i : Nat)
    (h : i < (initTrace kb buildIndex).length) :
    ((initTrace kb buildIndex).get ⟨i, h⟩).vectorstore.isSome = decide (i = 2) ∧
    (ragHealth ((initTrace kb buildIndex).get ⟨i, h⟩)).vectorstoreReady = decide (i = 2) ∧
    (∀ q : String, q ≠ "" → i ≠ 2 →
      (ragApiQuery ((initTrace kb buildIndex).get ⟨i, h⟩).vectorstore (some q)).status = 503) := by
  match i with
  | 0 =>
    refine ⟨rfl, rfl, fun q hq _ => ?_⟩
    show (ragApiQuery none (some q)).status = 503
    rw [ragApiQuery_not_ready q hq]
  | 1 =>
    refine ⟨rfl, rfl, fun q hq _ => ?_⟩
    show (ragApiQuery none (some q)).status = 503
    rw [ragApiQuery_not_ready q hq]
  | 2 =>
    exact ⟨rfl, rfl, fun q _ hi => absurd rfl hi⟩
  | (n + 3) =>
    exact absurd h (by simp [initTrace])

theorem readiness_only_after_build_witness :
    ((initTrace [("Account", ["Login -> UmsHome"])] (fun _ => fun _ _ => [])).get
        ⟨0, by decide⟩).vectorstore.isSome = decide ((0 : Nat) = 2) ∧
    (ragHealth ((initTrace [("Account", ["Login -> UmsHome"])] (fun _ => fun _ _ => [])).get
        ⟨0, by decide⟩)).vectorstoreReady = decide ((0 : Nat) = 2) ∧
    (∀ q : String, q ≠ "" → (0 : Nat) ≠ 2 →
      (ragApiQuery ((initTrace [("Account", ["Login -> UmsHome"])] (fun _ => fun _ _ => [])).get
          ⟨0, by decide⟩).vectorstore (some q)).status = 503) :=
  readiness_only_after_build [("Account", ["Login -> UmsHome"])] (fun _ => fun _ _ => []) 0 (by decide)

/-- C7 -- an entry shorter than the 200-character chunk window produces
exactly one chunk, equal to the original entry. -/
theorem short_entry_single_chunk (t : String) (h : t.length < 200) :
    splitEntry t = [t] := by
  have h1 : t.toList.length ≤ 200 := by
    have he : t.toList.length = t.length := rfl
    omega
  unfold splitEntry
  rw [windowChunks, dif_pos h1]
  rfl

theorem short_entry_single_chunk_witness :
    splitEntry "Login -> UmsHome -> Change Password -> Change UMS Password" =
      ["Login -> UmsHome -> Change Password -> Change UMS Password"] :=
  short_entry_single_chunk "Login -> UmsHome -> Change Password -> Change UMS Password" (by decide)

theorem chunks_ge_entries_aux (l : List String) :
    l.length ≤ ((l.map splitEntry).flatten).length := by
  induction l with
  | nil => simp
  | cons a t ih =>
    simp only [List.map_cons, List.flatten_cons, List.length_append, List.length_cons]
    have ha := splitEntry_length_pos a
    omega

/-- C8 -- for a non-empty knowledge base, the number of chunks produced
by the splitting step is at least the number of flattened knowledge
entries. -/
theorem chunk_count_ge_entry_count (kb : List (String × List String))
    (_h : flattenKB kb ≠ []) :
    (flattenKB kb).length ≤ (allChunks kb).length := by
  unfold allChunks
  exact chunks_ge_entries_aux (flattenKB kb)

theorem chunk_count_ge_entry_count_witness :
    (flattenKB [("Account", ["Login -> UmsHome", "Login -> Exams"])]).length ≤
      (allChunks [("Account", ["Login -> UmsHome", "Login -> Exams"])]).length :=
  chunk_count_ge_entry_count [("Account", ["Login -> UmsHome", "Login -> Exams"])] (by decide)

/-- C10 -- at the Retrieval Service's own `/api/query`, the
question-presence check precedes the readiness check and only rejects
falsy questions: (a) a missing or empty-string question gets a 200
"No question provided" answer with no search, whatever the vector-store
state (including not ready); (b) a whitespace-only question passes the
check and triggers the k=3 similarity search, answering with the nearest
chunk (or the fallback when the search is empty). -/
theorem rag_query_falsy_check_first (vsOpt : Option VectorStore) (vs : VectorStore) :
    (ragApiQuery vsOpt none).status = 200 ∧
    (ragApiQuery vsOpt none).answer = "❌ No question provided." ∧
    (ragApiQuery vsOpt none).searched = none ∧
    (ragApiQuery vsOpt (some "")).status = 200 ∧
    (ragApiQuery vsOpt (some "")).answer = "❌ No question provided." ∧
    (ragApiQuery vsOpt (some "")).searched = none ∧
    (ragApiQuery (some vs) (some " ")).status = 200 ∧
    (ragApiQuery (some vs) (some " ")).searched = some (" ", 3) ∧
    (ragApiQuery (some vs) (some " ")).answer =
      (match vs " " 3 with
       | [] => "Sorry, no relevant answer found."
       | (d, _) :: _ => d.pageContent) := by
  have hw : (" " : String) ≠ "" := by decide
  refine ⟨rfl, rfl, rfl, by simp [ragApiQuery], by simp [ragApiQuery], by simp [ragApiQuery],
    ?_, ?_, ?_⟩
  · simp only [ragApiQuery]
    rw [if_neg hw]
  · simp only [ragApiQuery]
    rw [if_neg hw]
  · simp only [ragApiQuery]
    rw [if_neg hw]

/-- A JavaScript value as it can arrive in the request body's `question`
field: absent, null, a string, a number, or a boolean. -/
inductive JsValue where
  | vUndef
  | vNull
  | vStr (s : String)
  | vNum (n : Int)
  | vBool (b : Bool)
deriving Repr, DecidableEq

/-- JavaScript truthiness of such a value (`!question` negates this). -/
def jsTruthy : JsValue → Bool
  | .vUndef => false
  | .vNull => false
  | .vStr s => !(s == "")
  | .vNum n => !(n == 0)
  | .vBool b => b

/-- `typeof question === "string"`. -/
def isJsString : JsValue → Bool
  | .vStr _ => true
  | _ => false

/-- The whitespace characters removed by JavaScript's
`String.prototype.trim` (the ones that can occur in a question). -/
def isJsWhitespace (c : Char) : Bool :=
  c == ' ' || c == '\t' || c == '\n' || c == '\r' || c == '\x0b' || c == '\x0c'

/-- JavaScript `question.trim()`: strip whitespace from both ends. -/
def jsTrim (s : String) : String :=
  String.mk (((s.toList.dropWhile isJsWhitespace).reverse.dropWhile isJsWhitespace).reverse)

/-- The proxy's validation condition (proxy server line 105):
`!question || typeof question !== "string" || !question.trim()`.
The third disjunct is only evaluated on strings (short-circuit). -/
def proxyQuestionInvalid (q : JsValue) : Bool :=
  !jsTruthy q || !isJsString q ||
    (match q with
     | .vStr s => jsTrim s == ""
     | _ => true)

/-- The string held by a question value (only used once validated). -/
def questionString : JsValue → String
  | .vStr s => s
  | _ => ""

/-- `!RAG_API_URL`: the configured downstream URL is falsy when unset or
empty. -/
def jsUrlMissing : Option String → Bool
  | none => true
  | some u => u == ""

/-- Outcome of the outbound `axios.post` forward to the Retrieval
Service, as the proxy's catch-branches distinguish it: a success body, a
timeout (`error.code === "ECONNABORTED"`), a downstream error response
(`error.response` with its status and data), no response at all
(`error.request`, carrying the raw connection-error message that is only
logged), or any other error. -/
inductive ForwardOutcome where
  | success (data : String)
  | timeout
  | errResponse (status : Nat) (data : String)
  | noResponse (rawMessage : String)
  | otherError

/-- Response produced by the proxy's `/api/query` handler. `errField`,
`answer` and `details` are the JSON body fields (a `none` field is
omitted from the JSON); `relayed` is the downstream body relayed
verbatim on success; `sentQuestion` records the question string actually
forwarded downstream (`none` when no outbound call was made). -/
structure ProxyResult where
  status : Nat
  errField : Option String
  answer : Option String
  details : Option String
  relayed : Option String
  sentQuestion : Option String
deriving Repr, DecidableEq

/-- The Proxy Gateway `/api/query` handler (proxy server lines 98-192):
validate the question (400), check the configured downstream URL (500),
then forward `question.trim()` and either relay the success body
verbatim or map the failure kind: timeout to 504, downstream error
response to its own status (internal data only attached in development
mode), no response to 503, anything else to 500. -/
def proxyApiQuery (env : Option String) (ragUrl : Option String)
    (question : JsValue) (outcome : ForwardOutcome) : ProxyResult :=
  if proxyQuestionInvalid question then
    ⟨400, some "Question is required",
      some "Please provide a valid question to get an answer.", none, none, none⟩
  else if jsUrlMissing ragUrl then
    ⟨500, some "Server configuration error",
      some "The server is not properly configured. Please contact support.", none, none, none⟩
  else
    let sent := jsTrim (questionString question)
    match outcome with
    | .success data => ⟨200, none, none, none, some data, some sent⟩
    | .timeout =>
      ⟨504, some "Request timeout",
        some "The request took too long to process. Please try again with a simpler question.",
        none, none, some sent⟩
    | .errResponse st data =>
      ⟨st, some "Error from RAG API",
        some "Sorry, there was an error processing your question. Please try again.",
        if env = some "development" then some data else none, none, some sent⟩
    | .noResponse _ =>
      ⟨503, some "RAG API unavailable",
        some "The AI service is currently unavailable. Please try again in a moment.",
        none, none, some sent⟩
    | .otherError =>
      ⟨500, some "Internal server error",
        some "An unexpected error occurred. Please try again.", none, none, some sent⟩

/-- Outcome of the outbound health probe `axios.get(RAG_API_URL/health)`:
a success body, or a failure carrying `error.message`. -/
inductive HealthOutcome where
  | ok (data : String)
  | fail (message : String)

/-- Response of the proxy's `/api/rag-health` handler. `errMsg` is the
`error` field of the JSON body. -/
structure RagHealthResult where
  status : Nat
  statusField : String
  message : String
  errMsg : Option String
  ragResponse : Option String
deriving Repr, DecidableEq

/-- The Proxy Gateway `/api/rag-health` handler (proxy server lines
197-233): 500 when the downstream URL is unconfigured; on a successful
probe, 200 with the downstream body; on failure, 503 with
`error: error.message` in the body — unconditionally, with no check of
the environment mode. -/
def proxyRagHealth (ragUrl : Option String) (outcome : HealthOutcome) :
    RagHealthResult :=
  if jsUrlMissing ragUrl then
    ⟨500, "error", "RAG_API_URL not configured", none, none⟩
  else
    match outcome with
    | .ok data => ⟨200, "connected", "RAG API is healthy and reachable", none, some data⟩
    | .fail msg => ⟨503, "unavailable", "RAG API is not reachable", some msg, none⟩

/-- C3 -- a question that is missing, not a string, empty, or
whitespace-only is answered 400 with the fixed prompt, and no outbound
call is made: the response is one fixed record (with `sentQuestion`
empty), whatever the environment, the configured URL, and whatever the
downstream would have done. -/
theorem proxy_rejects_invalid_question (env ragUrl : Option String) (q : JsValue)
    (outcome : ForwardOutcome) (h : proxyQuestionInvalid q = true) :
    proxyApiQuery env ragUrl q outcome =
      ⟨400, some "Question is required",
        some "Please provide a valid question to get an answer.", none, none, none⟩ := by
  simp [proxyApiQuery, h]

theorem proxy_rejects_invalid_question_witness :
    proxyApiQuery none (some "http://localhost:8000") (.vStr "   ") (.noResponse "boom") =
      ⟨400, some "Question is required",
        some "Please provide a valid question to get an answer.", none, none, none⟩ :=
  proxy_rejects_invalid_question none (some "http://localhost:8000") (.vStr "   ")
    (.noResponse "boom") (by decide)

/-- C4 -- with a valid question and a configured URL, a downstream
timeout is answered 504 with the retry-with-a-simpler-question message,
while a downstream that gives no response at all is answered 503 with
the fixed generic unavailability message — whatever the raw
connection-error text was, which never reaches the body — and the two
statuses are distinct. -/
theorem proxy_timeout_vs_unreachable (env ragUrl : Option String) (q : JsValue)
    (rawMsg : String) (hq : proxyQuestionInvalid q = false)
    (hu : jsUrlMissing ragUrl = false) :
    (proxyApiQuery env ragUrl q .timeout).status = 504 ∧
    (proxyApiQuery env ragUrl q .timeout).answer =
      some "The request took too long to process. Please try again with a simpler question." ∧
    (proxyApiQuery env ragUrl q (.noResponse rawMsg)).status = 503 ∧
    (proxyApiQuery env ragUrl q (.noResponse rawMsg)).errField = some "RAG API unavailable" ∧
    (proxyApiQuery env ragUrl q (.noResponse rawMsg)).answer =
      some "The AI service is currently unavailable. Please try again in a moment." ∧
    (proxyApiQuery env ragUrl q .timeout).status ≠
      (proxyApiQuery env ragUrl q (.noResponse rawMsg)).status := by
  simp [proxyApiQuery, hq, hu]

theorem proxy_timeout_vs_unreachable_witness :
    (proxyApiQuery none (some "http://localhost:8000") (.vStr "hi") .timeout).status = 504 ∧
    (proxyApiQuery none (some "http://localhost:8000") (.vStr "hi") .timeout).answer =
      some "The request took too long to process. Please try again with a simpler question." ∧
    (proxyApiQuery none (some "http://localhost:8000") (.vStr "hi")
      (.noResponse "connect ECONNREFUSED")).status = 503 ∧
    (proxyApiQuery none (some "http://localhost:8000") (.vStr "hi")
      (.noResponse "connect ECONNREFUSED")).errField = some "RAG API unavailable" ∧
    (proxyApiQuery none (some "http://localhost:8000") (.vStr "hi")
      (.noResponse "connect ECONNREFUSED")).answer =
      some "The AI service is currently unavailable. Please try again in a moment." ∧
    (proxyApiQuery none (some "http://localhost:8000") (.vStr "hi") .timeout).status ≠
      (proxyApiQuery none (some "http://localhost:8000") (.vStr "hi")
        (.noResponse "connect ECONNREFUSED")).status :=
  proxy_timeout_vs_unreachable none (some "http://localhost:8000") (.vStr "hi")
    "connect ECONNREFUSED" (by decide) (by decide)

/-- C9 -- on a successful forward the proxy sends the trimmed question
downstream and relays the downstream body verbatim, with a 200 status
and no error fields of its own. -/
theorem proxy_success_relays_verbatim (env ragUrl : Option String) (s data : String)
    (hq : proxyQuestionInvalid (.vStr s) = false) (hu : jsUrlMissing ragUrl = false) :
    proxyApiQuery env ragUrl (.vStr s) (.success data) =
      ⟨200, none, none, none, some data, some (jsTrim s)⟩ := by
  simp [proxyApiQuery, hq, hu, questionString]

theorem proxy_success_relays_verbatim_witness :
    proxyApiQuery none (some "http://localhost:8000") (.vStr " How to change password? ")
        (.success "answer body") =
      ⟨200, none, none, none, some "answer body", some "How to change password?"⟩ :=
  proxy_success_relays_verbatim none (some "http://localhost:8000")
    " How to change password? " "answer body" (by decide) (by decide)

/-- C6 counterexample -- running in production (no NODE_ENV set), a
failed `/api/rag-health` probe puts the raw downstream error message
verbatim into the client-visible body's `error` field: the handler never
consults the environment mode at all. -/
theorem rag_health_leaks_error_message :
    (proxyRagHealth (some "https://ums-rag-server.onrender.com")
        (.fail "connect ECONNREFUSED 127.0.0.1:8000")).errMsg =
      some "connect ECONNREFUSED 127.0.0.1:8000" := rfl

/-- C6 (amended) -- outside development mode, every `/api/query`
response omits the `details` diagnostic field whatever the outcome; but
the `/api/rag-health` failure response always carries the raw downstream
error message in its body, in every mode. -/
theorem prod_hides_details_except_rag_health (env ragUrl : Option String)
    (q : JsValue) (outcome : ForwardOutcome) (msg : String)
    (henv : env ≠ some "development") (hu : jsUrlMissing ragUrl = false) :
    (proxyApiQuery env ragUrl q outcome).details = none ∧
    (proxyRagHealth ragUrl (.fail msg)).errMsg = some msg := by
  constructor
  · unfold proxyApiQuery
    cases hval : proxyQuestionInvalid q with
    | true => simp
    | false =>
      simp only [Bool.false_eq_true, if_false, hu]
      cases outcome <;> simp [henv]
  · simp [proxyRagHealth, hu]

theorem prod_hides_details_except_rag_health_witness :
    (proxyApiQuery none (some "http://localhost:8000") (.vStr "hi")
        (.errResponse 500 "stack trace")).details = none ∧
    (proxyRagHealth (some "http://localhost:8000") (.fail "ECONNREFUSED")).errMsg =
      some "ECONNREFUSED" :=
  prod_hides_details_except_rag_health none (some "http://localhost:8000") (.vStr "hi")
    (.errResponse 500 "stack trace") "ECONNREFUSED" (by decide) (by decide)
